import Mathlib

/-!
Verification of the WGS84 latitudinal line-coordinate computation from the
exploration notebook `FunWithWGS84.ipynb`.

The notebook defines a class `WGS84` of fixed ellipsoid constants and a single
pure function `line_coordinates_2d(lat)` that converts a geodetic latitude in
degrees into the line-coordinate pair `(angle, offset)` of the corresponding
latitudinal line, by inverting a fixed 2×2 matrix.  We embed the constants and
the function over the real numbers and prove the specified properties.
-/

namespace IonoTomography

/-- WGS84 semi-major axis, from the `class WGS84` cell: `a = 6378137`. -/
noncomputable def WGS84.a : ℝ := 6378137

/-- WGS84 semi-minor axis, from the `class WGS84` cell: `b = 6356752.31424518`. -/
noncomputable def WGS84.b : ℝ := 6356752.31424518

/-- WGS84 flattening, from the `class WGS84` cell: `f = 1 / 298.257223563`. -/
noncomputable def WGS84.f : ℝ := 1 / 298.257223563

/-- WGS84 eccentricity, from the `class WGS84` cell:
`e = sqrt((a**2 - b**2)/(a**2))`. -/
noncomputable def WGS84.e : ℝ := Real.sqrt ((WGS84.a ^ 2 - WGS84.b ^ 2) / WGS84.a ^ 2)

/-- WGS84 second eccentricity, from the `class WGS84` cell:
`e_p = sqrt((a**2 - b**2)/(b**2))`. -/
noncomputable def WGS84.e_p : ℝ := Real.sqrt ((WGS84.a ^ 2 - WGS84.b ^ 2) / WGS84.b ^ 2)

/-- Embedding of `np.allclose(x, y)` for scalars, with numpy's default
tolerances `rtol = 1e-5`, `atol = 1e-8`: `|x - y| ≤ atol + rtol * |y|`.
The `class WGS84` cell asserts `np.allclose(b, a*(1-f))`. -/
def allclose (x y : ℝ) : Prop := |x - y| ≤ 1e-8 + 1e-5 * |y|

/-- Embedding of `np.deg2rad`: degrees to radians, `x * π / 180`. -/
noncomputable def deg2rad (x : ℝ) : ℝ := x * Real.pi / 180

/-- First line of `line_coordinates_2d`: `theta1 = np.deg2rad(lat)`. -/
noncomputable def theta1 (lat : ℝ) : ℝ := deg2rad lat

/-- First line of `line_coordinates_2d`: `theta2 = np.deg2rad(lat) + pi / 2.`. -/
noncomputable def theta2 (lat : ℝ) : ℝ := deg2rad lat + Real.pi / 2

/-- Second line of `line_coordinates_2d`:
`delta = WGS84.e**2 * WGS84.a * sin(theta1)`. -/
noncomputable def delta (lat : ℝ) : ℝ := WGS84.e ^ 2 * WGS84.a * Real.sin (theta1 lat)

/-- The vector `u1 = np.array([0, 0])` of `line_coordinates_2d`. -/
def u1 : Fin 2 → ℝ := ![0, 0]

/-- The vector `u2 = np.array([0, delta])` of `line_coordinates_2d`. -/
noncomputable def u2 (lat : ℝ) : Fin 2 → ℝ := ![0, delta lat]

/-- The matrix
`A = np.matrix([[sin(theta1), -sin(theta2)], [-cos(theta1), cos(theta2)]])`
of `line_coordinates_2d`. -/
noncomputable def Amat (lat : ℝ) : Matrix (Fin 2) (Fin 2) ℝ :=
  !![Real.sin (theta1 lat), -Real.sin (theta2 lat);
     -Real.cos (theta1 lat), Real.cos (theta2 lat)]

/-- The solution vector `tau = inv(A) * (u2 - u1).reshape((2,1))` of
`line_coordinates_2d`, with the library matrix inverse. -/
noncomputable def tau (lat : ℝ) : Fin 2 → ℝ := (Amat lat)⁻¹.mulVec (u2 lat - u1)

/-- Embedding of the notebook function `line_coordinates_2d(lat)`:
returns `(theta2, tau[0,0])`. -/
noncomputable def line_coordinates_2d (lat : ℝ) : ℝ × ℝ := (theta2 lat, tau lat 0)

/-- Modelled from the spec: the solution of the linear system exactly as the
spec's algorithm step 5 writes it, with right-hand side
`[0,0]ᵗ - [0,Δ]ᵗ = [0, -Δ]ᵗ` (that is, `u1 - u2` rather than the code's
`u2 - u1`). -/
noncomputable def tau_spec (lat : ℝ) : Fin 2 → ℝ := (Amat lat)⁻¹.mulVec (u1 - u2 lat)

/-- Modelled from the spec: `line_coordinates_2d` as the spec's algorithm
describes it, returning `(θ2, τ1)` with `τ1` taken from the system whose
right-hand side is `[0, -Δ]ᵗ`. -/
noncomputable def line_coordinates_2d_spec (lat : ℝ) : ℝ × ℝ := (theta2 lat, tau_spec lat 0)

/-- Modelled from the spec (design note of section 9): the explicit
closed-form Cramer solve of a 2×2 linear system `A x = v`. -/
noncomputable def cramer_solve_fin_two (A : Matrix (Fin 2) (Fin 2) ℝ) (v : Fin 2 → ℝ) :
    Fin 2 → ℝ :=
  ![(A 1 1 * v 0 - A 0 1 * v 1) / (A 0 0 * A 1 1 - A 0 1 * A 1 0),
    (A 0 0 * v 1 - A 1 0 * v 0) / (A 0 0 * A 1 1 - A 0 1 * A 1 0)]

/-- Modelled from the spec (design note of section 9): `line_coordinates_2d`
with the library matrix inversion replaced by the explicit closed-form
(Cramer's rule) solve of the same system. -/
noncomputable def line_coordinates_2d_cramer (lat : ℝ) : ℝ × ℝ :=
  (theta2 lat, cramer_solve_fin_two (Amat lat) (u2 lat - u1) 0)

/-- Record of the ellipsoid constants, for stating that they are never
mutated by a call. -/
structure Ellipsoid where
  a : ℝ
  b : ℝ
  f : ℝ
  e : ℝ
  e_p : ℝ

/-- The WGS84 constants gathered in a record. -/
noncomputable def wgs84Consts : Ellipsoid :=
  ⟨WGS84.a, WGS84.b, WGS84.f, WGS84.e, WGS84.e_p⟩

/-- Stateful embedding of a call to `line_coordinates_2d`: the body only ever
reads the ellipsoid constants (`WGS84.e`, `WGS84.a`) and contains no write, so
its state-transformer translation threads the constants through unchanged and
returns them beside the result. -/
noncomputable def line_coordinates_2d_st (s : Ellipsoid) (lat : ℝ) : (ℝ × ℝ) × Ellipsoid :=
  let t1 := deg2rad lat
  let t2 := deg2rad lat + Real.pi / 2
  let d := s.e ^ 2 * s.a * Real.sin t1
  let v1 : Fin 2 → ℝ := ![0, 0]
  let v2 : Fin 2 → ℝ := ![0, d]
  let A : Matrix (Fin 2) (Fin 2) ℝ :=
    !![Real.sin t1, -Real.sin t2; -Real.cos t1, Real.cos t2]
  let t := A⁻¹.mulVec (v2 - v1)
  ((t2, t 0), s)

/-! ### Helper lemmas -/

theorem sin_theta2 (lat : ℝ) : Real.sin (theta2 lat) = Real.cos (theta1 lat) := by
  rw [theta1, theta2, Real.sin_add_pi_div_two]

theorem cos_theta2 (lat : ℝ) : Real.cos (theta2 lat) = -Real.sin (theta1 lat) := by
  rw [theta1, theta2, Real.cos_add_pi_div_two]

theorem det_expr (lat : ℝ) :
    Real.sin (theta1 lat) * Real.cos (theta2 lat) -
      -Real.sin (theta2 lat) * -Real.cos (theta1 lat) = -1 := by
  rw [sin_theta2, cos_theta2]
  linear_combination -(Real.sin_sq_add_cos_sq (theta1 lat))

theorem det_Amat (lat : ℝ) : (Amat lat).det = -1 := by
  rw [Amat, Matrix.det_fin_two_of, det_expr]

theorem u2_sub_u1 (lat : ℝ) : u2 lat - u1 = ![0, delta lat] := by
  funext i
  fin_cases i <;> simp [u1, u2]

theorem u1_sub_u2 (lat : ℝ) : u1 - u2 lat = ![0, -delta lat] := by
  funext i
  fin_cases i <;> simp [u1, u2]

theorem inv_mulVec_fin_two (p q r s x y : ℝ) (h : p * s - q * r ≠ 0) :
    (!![p, q; r, s])⁻¹.mulVec ![x, y] =
      ![(s * x - q * y) / (p * s - q * r), (p * y - r * x) / (p * s - q * r)] := by
  rw [Matrix.inv_def, Matrix.adjugate_fin_two_of, Matrix.det_fin_two_of,
    Ring.inverse_eq_inv]
  funext i
  fin_cases i <;>
    · simp [Matrix.mulVec, Matrix.dotProduct, Fin.sum_univ_two, smul_eq_mul]
      field_simp
      ring

theorem Amat_eq (lat : ℝ) :
    Amat lat = !![Real.sin (theta1 lat), -Real.sin (theta2 lat);
      -Real.cos (theta1 lat), Real.cos (theta2 lat)] := rfl

theorem tau_eq (lat : ℝ) :
    tau lat = ![-(delta lat * Real.cos (theta1 lat)),
      -(delta lat * Real.sin (theta1 lat))] := by
  rw [tau, u2_sub_u1, Amat_eq,
    inv_mulVec_fin_two _ _ _ _ _ _ (by rw [det_expr lat]; norm_num)]
  rw [det_expr lat, sin_theta2, cos_theta2]
  funext i
  fin_cases i <;> · simp; ring

theorem tau_spec_eq (lat : ℝ) :
    tau_spec lat = ![delta lat * Real.cos (theta1 lat),
      delta lat * Real.sin (theta1 lat)] := by
  rw [tau_spec, u1_sub_u2, Amat_eq,
    inv_mulVec_fin_two _ _ _ _ _ _ (by rw [det_expr lat]; norm_num)]
  rw [det_expr lat, sin_theta2, cos_theta2]
  funext i
  fin_cases i <;> · simp; ring

theorem offset_eq (lat : ℝ) :
    (line_coordinates_2d lat).2 =
      -(WGS84.e ^ 2 * WGS84.a * Real.sin (theta1 lat) * Real.cos (theta1 lat)) := by
  have h : (line_coordinates_2d lat).2 = tau lat 0 := rfl
  rw [h, tau_eq, delta]
  simp [mul_assoc]

theorem e_sq : WGS84.e ^ 2 = (WGS84.a ^ 2 - WGS84.b ^ 2) / WGS84.a ^ 2 := by
  rw [WGS84.e]
  rw [Real.sq_sqrt]
  rw [WGS84.a, WGS84.b]
  norm_num

theorem e2a_pos : 0 < WGS84.e ^ 2 * WGS84.a := by
  rw [e_sq, WGS84.a, WGS84.b]
  norm_num

theorem deg2rad_45 : deg2rad 45 = Real.pi / 4 := by
  rw [deg2rad]; ring

theorem deg2rad_neg (lat : ℝ) : deg2rad (-lat) = -deg2rad lat := by
  rw [deg2rad, deg2rad]; ring

theorem sin_cos_pi_div_four :
    Real.sin (Real.pi / 4) * Real.cos (Real.pi / 4) = 1 / 2 := by
  rw [Real.sin_pi_div_four, Real.cos_pi_div_four, div_mul_div_comm,
    Real.mul_self_sqrt (by norm_num : (0:ℝ) ≤ 2)]
  norm_num

theorem offset_45 : (line_coordinates_2d 45).2 = -(WGS84.e ^ 2 * WGS84.a / 2) := by
  rw [offset_eq, theta1, deg2rad_45, mul_assoc, sin_cos_pi_div_four]
  ring

theorem delta_cos_45 : delta 45 * Real.cos (theta1 45) = WGS84.e ^ 2 * WGS84.a / 2 := by
  rw [delta, theta1, deg2rad_45]
  linear_combination WGS84.e ^ 2 * WGS84.a * sin_cos_pi_div_four

theorem offset_spec_45 :
    (line_coordinates_2d_spec 45).2 = WGS84.e ^ 2 * WGS84.a / 2 := by
  have h : (line_coordinates_2d_spec 45).2 = tau_spec 45 0 := rfl
  rw [h, tau_spec_eq]
  simp only [Matrix.cons_val_zero]
  exact delta_cos_45

theorem offset_neg45 : (line_coordinates_2d (-45)).2 = WGS84.e ^ 2 * WGS84.a / 2 := by
  rw [offset_eq, theta1, deg2rad_neg, deg2rad_45, Real.sin_neg, Real.cos_neg]
  linear_combination WGS84.e ^ 2 * WGS84.a * sin_cos_pi_div_four

theorem cramer_offset (lat : ℝ) :
    cramer_solve_fin_two (Amat lat) ![0, delta lat] 0 =
      (Real.cos (theta2 lat) * 0 - -Real.sin (theta2 lat) * delta lat) /
        (Real.sin (theta1 lat) * Real.cos (theta2 lat) -
          -Real.sin (theta2 lat) * -Real.cos (theta1 lat)) := rfl

/-! ### Claims -/

/-- C1 (counterexample): at latitude 45, the pair returned by the code differs
from the pair `(θ2, τ1)` obtained by solving the system with the right-hand
side `[0, -Δ]ᵗ` that the claim states; the code solves the system with
right-hand side `u2 - u1 = [0, Δ]ᵗ` instead. -/
theorem line_coordinates_2d_ne_spec_at_45 :
    line_coordinates_2d 45 ≠ line_coordinates_2d_spec 45 := by
  intro h
  have h2 : (line_coordinates_2d 45).2 = (line_coordinates_2d_spec 45).2 := by rw [h]
  rw [offset_45, offset_spec_45] at h2
  have := e2a_pos
  linarith

/-- C1 (amended): for every input latitude, with `θ1 = deg2rad lat`,
`θ2 = θ1 + π/2` and `Δ = e²·a·sin θ1`, the function solves the 2×2 linear
system `[[sin θ1, -sin θ2], [-cos θ1, cos θ2]] · [τ1, τ2]ᵗ = [0, Δ]ᵗ` (the
right-hand side is `u2 - u1 = [0, Δ]ᵗ`, not `[0, -Δ]ᵗ`) and returns the pair
`(θ2, τ1)`. -/
theorem line_coordinates_2d_solves_system (lat : ℝ) :
    (line_coordinates_2d lat).1 = theta2 lat ∧
    (Amat lat).mulVec ![(line_coordinates_2d lat).2, tau lat 1] = ![0, delta lat] := by
  constructor
  · rfl
  · have hv : ![tau lat 0, tau lat 1] = tau lat := by
      funext i; fin_cases i <;> simp
    have h0 : (line_coordinates_2d lat).2 = tau lat 0 := rfl
    have hu : IsUnit (Amat lat).det := by
      rw [det_Amat]; exact isUnit_iff_ne_zero.mpr (by norm_num)
    rw [h0, hv, tau, Matrix.mulVec_mulVec, Matrix.mul_nonsing_inv _ hu,
      Matrix.one_mulVec, u2_sub_u1]

/-- C2: for input latitude 45 degrees, the function returns
`angle = 3π/4 ≈ 2.356194490192345` and `offset ≈ -21348.836353589373`
(within `10⁻⁶` of the documented example values). -/
theorem line_coordinates_2d_at_45 :
    (line_coordinates_2d 45).1 = 3 * Real.pi / 4 ∧
    |(line_coordinates_2d 45).1 - 2.356194490192345| < 1e-6 ∧
    |(line_coordinates_2d 45).2 - -21348.836353589373| < 1e-6 := by
  have h1 : (line_coordinates_2d 45).1 = 3 * Real.pi / 4 := by
    show theta2 45 = 3 * Real.pi / 4
    rw [theta2, deg2rad]; ring
  refine ⟨h1, ?_, ?_⟩
  · rw [h1, abs_lt]
    constructor <;> nlinarith [Real.pi_gt_d6, Real.pi_lt_d6]
  · rw [offset_45, e_sq, WGS84.a, WGS84.b, abs_lt]
    norm_num

/-- C3: for every input latitude, the first component of the returned pair
equals `deg2rad latitude + π/2`, independently of the offset computation. -/
theorem angle_eq_deg2rad_add_pi_div_two (lat : ℝ) :
    (line_coordinates_2d lat).1 = deg2rad lat + Real.pi / 2 := rfl

/-- C4: the offset is odd in the latitude: the offset component of the result
at `-L` is the negation of the offset component at `L`, for every latitude. -/
theorem offset_odd (lat : ℝ) :
    (line_coordinates_2d (-lat)).2 = -(line_coordinates_2d lat).2 := by
  rw [offset_eq, offset_eq, theta1, theta1, deg2rad_neg, Real.sin_neg, Real.cos_neg]
  ring

/-- C5: for every latitude the matrix `A` is invertible: its determinant
equals `sin (θ1 - θ2)`, which is `-1`, hence a unit, so the inversion step
never meets a singular matrix; moreover the offsets at latitude 90 and
latitude -90 are the (finite) real number 0. -/
theorem Amat_invertible :
    (∀ lat : ℝ, (Amat lat).det = Real.sin (theta1 lat - theta2 lat) ∧
      (Amat lat).det = -1 ∧ IsUnit (Amat lat).det) ∧
    (line_coordinates_2d 90).2 = 0 ∧ (line_coordinates_2d (-90)).2 = 0 := by
  refine ⟨fun lat => ⟨?_, det_Amat lat, ?_⟩, ?_, ?_⟩
  · have h : theta1 lat - theta2 lat = -(Real.pi / 2) := by
      rw [theta1, theta2]; ring
    rw [det_Amat, h, Real.sin_neg, Real.sin_pi_div_two]
  · rw [det_Amat]
    exact isUnit_iff_ne_zero.mpr (by norm_num)
  · have h : deg2rad 90 = Real.pi / 2 := by rw [deg2rad]; ring
    rw [offset_eq, theta1, h, Real.cos_pi_div_two]
    ring
  · have h : deg2rad (-90) = -(Real.pi / 2) := by rw [deg2rad]; ring
    rw [offset_eq, theta1, h, Real.cos_neg, Real.cos_pi_div_two]
    ring

/-- C6: for every input latitude, replacing the library matrix-inversion solve
by the explicit closed-form (Cramer's rule) solve of the same system yields
the same returned pair. -/
theorem cramer_equiv (lat : ℝ) :
    line_coordinates_2d lat = line_coordinates_2d_cramer lat := by
  have h : tau lat 0 = cramer_solve_fin_two (Amat lat) (u2 lat - u1) 0 := by
    rw [u2_sub_u1, cramer_offset, det_expr, sin_theta2, tau_eq]
    simp only [Matrix.cons_val_zero]
    ring
  exact congrArg (fun x => (theta2 lat, x)) h

/-- C7 (counterexample): the stored flattening `f = 1/298.257223563` is not
exactly equal to `1 - b/a` for the stored `a` and `b` (the two rational
values differ by about `8·10⁻¹⁷`). -/
theorem f_ne_one_sub_b_div_a : WGS84.f ≠ 1 - WGS84.b / WGS84.a := by
  rw [WGS84.f, WGS84.a, WGS84.b]
  norm_num

/-- C7 (amended): the stored flattening `f` equals `1 - b/a` only up to an
error below `10⁻¹²` (not exactly); the stored eccentricity `e` equals
`sqrt((a² - b²)/a²)` exactly; and the code's assertion
`np.allclose(b, a*(1-f))` holds. -/
theorem wgs84_constants_consistent :
    |WGS84.f - (1 - WGS84.b / WGS84.a)| < 1e-12 ∧
    WGS84.e = Real.sqrt ((WGS84.a ^ 2 - WGS84.b ^ 2) / WGS84.a ^ 2) ∧
    allclose WGS84.b (WGS84.a * (1 - WGS84.f)) := by
  refine ⟨?_, rfl, ?_⟩
  · rw [WGS84.f, WGS84.a, WGS84.b, abs_lt]
    norm_num
  · rw [allclose, WGS84.a, WGS84.b, WGS84.f]
    have hy : |(6378137:ℝ) * (1 - 1 / 298.257223563)| =
        6378137 * (1 - 1 / 298.257223563) := abs_of_nonneg (by norm_num)
    rw [hy, abs_le]
    norm_num

/-- C8: the computation is deterministic: two calls on identical inputs return
identical outputs (the embedding is a pure function of the latitude alone,
with no other state). -/
theorem line_coordinates_2d_deterministic (lat lat' : ℝ) (h : lat = lat') :
    line_coordinates_2d lat = line_coordinates_2d lat' := by
  rw [h]

/-- Witness for C8 at latitude 45. -/
theorem line_coordinates_2d_deterministic_witness :
    line_coordinates_2d 45 = line_coordinates_2d 45 :=
  line_coordinates_2d_deterministic 45 45 rfl

/-- C9: a call to `line_coordinates_2d` leaves the ellipsoid constants
unchanged: the stateful embedding returns the input constants record
untouched, every field of the WGS84 record after a call equals the
corresponding original constant, and the returned value agrees with the pure
embedding. -/
theorem constants_not_mutated (lat : ℝ) :
    (∀ s : Ellipsoid, (line_coordinates_2d_st s lat).2 = s) ∧
    ((line_coordinates_2d_st wgs84Consts lat).2).a = WGS84.a ∧
    ((line_coordinates_2d_st wgs84Consts lat).2).b = WGS84.b ∧
    ((line_coordinates_2d_st wgs84Consts lat).2).f = WGS84.f ∧
    ((line_coordinates_2d_st wgs84Consts lat).2).e = WGS84.e ∧
    ((line_coordinates_2d_st wgs84Consts lat).2).e_p = WGS84.e_p ∧
    (line_coordinates_2d_st wgs84Consts lat).1 = line_coordinates_2d lat :=
  ⟨fun _ => rfl, rfl, rfl, rfl, rfl, rfl, rfl⟩

/-- C10: the offset equals `-(e²·a/2)·sin(2·deg2rad L)` for every latitude
`L`, hence its absolute value is bounded by `e²·a/2`, and the bound is
attained at latitudes 45 and -45. -/
theorem offset_bounded :
    (∀ lat : ℝ, (line_coordinates_2d lat).2 =
      -(WGS84.e ^ 2 * WGS84.a / 2) * Real.sin (2 * deg2rad lat)) ∧
    (∀ lat : ℝ, |(line_coordinates_2d lat).2| ≤ WGS84.e ^ 2 * WGS84.a / 2) ∧
    |(line_coordinates_2d 45).2| = WGS84.e ^ 2 * WGS84.a / 2 ∧
    |(line_coordinates_2d (-45)).2| = WGS84.e ^ 2 * WGS84.a / 2 := by
  have hb : (0:ℝ) ≤ WGS84.e ^ 2 * WGS84.a / 2 := by linarith [e2a_pos]
  have hform : ∀ lat : ℝ, (line_coordinates_2d lat).2 =
      -(WGS84.e ^ 2 * WGS84.a / 2) * Real.sin (2 * deg2rad lat) := by
    intro lat
    rw [offset_eq, theta1, Real.sin_two_mul]
    ring
  refine ⟨hform, ?_, ?_, ?_⟩
  · intro lat
    have hs : |Real.sin (2 * deg2rad lat)| ≤ 1 := Real.abs_sin_le_one _
    have hsn : (0:ℝ) ≤ |Real.sin (2 * deg2rad lat)| := abs_nonneg _
    rw [hform lat, abs_mul, abs_neg, abs_of_nonneg hb]
    nlinarith
  · rw [offset_45, abs_neg, abs_of_nonneg hb]
  · rw [offset_neg45, abs_of_nonneg hb]

end IonoTomography
